import Mathlib

/-!
Shallow embedding of the sonos-manager controller (Rust) in Lean 4.

The embedding follows the source files under `src/`:
  * `controller.rs` — `SpeakerData`, `System::update_from_topology`,
    registry / topology look-ups, the recovery branch of `Controller::run`;
  * `zoneaction.rs` — `ZoneAction::handle_action` and the numeric helpers;
  * `mediasource.rs` — `MediaSource::{get_uri_and_metadata, play_now, queue_as_next}`;
  * `metadata.rs` — `spotify_uri_and_metadata`, `apple_uri_and_metadata`;
  * `subscriber.rs` — the configuration check in `Subscriber::subscribe`;
  * `lib.rs` / `types.rs` — the `Command`, `Event` and `Response` variants.

External library calls (SOAP actions, GENA subscriptions, browse results,
the live track query) are modelled as oracles carried in an `Env` record;
the remote calls a dispatch performs are recorded in a trace of
`(target-uuid, call)` pairs.
-/

namespace Sonos

/-! ## ASCII case-insensitive comparison (Rust `str::eq_ignore_ascii_case`) -/

/-- Lower-case an ASCII letter, leave every other character alone
(`u8::to_ascii_lowercase`). -/
def asciiLowerChar (c : Char) : Char :=
  if 'A' ≤ c ∧ c ≤ 'Z' then Char.ofNat (c.toNat + 32) else c

/-- The character list of `s` with ASCII letters lowered. -/
def lowerStr (s : String) : List Char :=
  s.data.map asciiLowerChar

/-- Rust `a.eq_ignore_ascii_case(b)`. -/
def eqIgnoreAsciiCase (a b : String) : Bool :=
  lowerStr a = lowerStr b

theorem eqIgnoreAsciiCase_iff {a b : String} :
    eqIgnoreAsciiCase a b = true ↔ lowerStr a = lowerStr b := by
  simp [eqIgnoreAsciiCase]

theorem eqIgnoreAsciiCase_refl (a : String) : eqIgnoreAsciiCase a a = true := by
  simp [eqIgnoreAsciiCase]

theorem eqIgnoreAsciiCase_symm {a b : String} (h : eqIgnoreAsciiCase a b = true) :
    eqIgnoreAsciiCase b a = true := by
  rw [eqIgnoreAsciiCase_iff] at h ⊢; exact h.symm

theorem eqIgnoreAsciiCase_trans {a b c : String}
    (h₁ : eqIgnoreAsciiCase a b = true) (h₂ : eqIgnoreAsciiCase b c = true) :
    eqIgnoreAsciiCase a c = true := by
  rw [eqIgnoreAsciiCase_iff] at h₁ h₂ ⊢; exact h₁.trans h₂

/-! ## Rust `str::parse::<u32>` -/

/-- Fold a digit list into a number. -/
def digitsVal (cs : List Char) : Nat :=
  cs.foldl (fun a c => a * 10 + (c.toNat - 48)) 0

/-- Rust `s.parse::<u32>()`: an optional leading `+`, then one or more ASCII
digits, value at most `u32::MAX`; everything else is a parse error. -/
def parseU32 (s : String) : Option Nat :=
  let cs := match s.data with
    | '+' :: rest => rest
    | cs => cs
  if cs ≠ [] ∧ cs.all Char.isDigit then
    let n := digitsVal cs
    if n < 2 ^ 32 then some n else none
  else none

/-! ## Data model (`controller.rs`, `types.rs`, sonor `SpeakerInfo` / `Speaker`) -/

/-- `sonor::SpeakerInfo`: the per-member entry in a zone-group-state payload
(UUID, room name, location URL). -/
structure SpeakerInfo where
  uuid : String
  name : String
  location : String
deriving DecidableEq, Repr

/-- `sonor::Speaker`, restricted to the attributes the controller reads and
writes: the UUID (immutable identity), the room name and the location URL
(updated by `set_name` / `set_location`).  The underlying UPnP device handle
is external and carries no state the claims depend on. -/
structure Speaker where
  uuid : String
  name : String
  location : String
deriving DecidableEq, Repr

/-- `controller.rs::SpeakerData`: a speaker with its cached AV-transport
key/value data.  The `transport_subscription : Option<Subscriber>` handle is
an external task handle; whether one is attached does not affect any claim
settled here, so it is omitted from the record. -/
structure SpeakerData where
  speaker : Speaker
  transport_data : List (String × String)
deriving DecidableEq, Repr

/-- `SpeakerData::new`: fresh record with empty transport cache. -/
def SpeakerData.new (speaker : Speaker) : SpeakerData :=
  { speaker := speaker, transport_data := [] }

/-- `types.rs`: `pub(super) type Topology = Vec<(Uuid, Vec<SpeakerInfo>)>`. -/
abbrev Topology : Type := List (String × List SpeakerInfo)

/-- `controller.rs::System`: the registry vector plus the stored topology
snapshot.  The queued event handles, topology subscription handle and seed
are external-task state not touched by `update_from_topology`. -/
structure System where
  speakerdata : List SpeakerData
  topology : Topology
deriving DecidableEq

/-! ## `System::update_from_topology` (controller.rs lines 107–148) -/

/-- `topology.iter().flat_map(|(_, infos)| infos)`: all member infos of a
topology, in order. -/
def memberInfos : Topology → List SpeakerInfo
  | [] => []
  | (_, infos) :: rest => infos ++ memberInfos rest

/-- `infos.any(|info| info.uuid().eq_ignore_ascii_case(u))`. -/
def infosHaveUuid (infos : List SpeakerInfo) (u : String) : Bool :=
  infos.any fun info => eqIgnoreAsciiCase info.uuid u

/-- `sds.any(|sd| sd.speaker.uuid().eq_ignore_ascii_case(u))`: whether the
registry holds a record for `u` (case-insensitively). -/
def registryHasUuid (sds : List SpeakerData) (u : String) : Bool :=
  sds.any fun sd => eqIgnoreAsciiCase sd.speaker.uuid u

/-- The `retain` step of `update_from_topology`: drop every record whose UUID
matches no info of the new topology. -/
def retainSpeakers (infos : List SpeakerInfo) (sds : List SpeakerData) :
    List SpeakerData :=
  sds.filter fun sd => infos.any fun info => eqIgnoreAsciiCase info.uuid sd.speaker.uuid

/-- The `iter_mut().find(..)` branch of the update loop: update the name and
location of the first record whose UUID matches `info` case-insensitively;
`none` when no record matches. -/
def updateExisting (info : SpeakerInfo) : List SpeakerData → Option (List SpeakerData)
  | [] => none
  | sd :: rest =>
    if eqIgnoreAsciiCase sd.speaker.uuid info.uuid then
      some ({ sd with
        speaker := { sd.speaker with name := info.name, location := info.location } } :: rest)
    else
      (updateExisting info rest).map (sd :: ·)

/-- The `for info in infos` loop of `update_from_topology`.  `construct`
models the external `Speaker::from_speaker_info` call, already collapsing its
two failure modes (`Err` from the library and the
`SpeakerNotIncludedInOwnZoneGroupState` case) into `none`, since both are
propagated identically by `?`.  The returned flag is `true` when the loop ran
to completion and `false` when a construction failure aborted it (the Rust
`?` early-returns; the mutations performed so far remain). -/
def applyInfos (construct : SpeakerInfo → Option Speaker) :
    List SpeakerData → List SpeakerInfo → List SpeakerData × Bool
  | sds, [] => (sds, true)
  | sds, info :: rest =>
    match updateExisting info sds with
    | some sds1 => applyInfos construct sds1 rest
    | none =>
      match construct info with
      | some sp => applyInfos construct (sds ++ [SpeakerData.new sp]) rest
      | none => (sds, false)

/-- `System::update_from_topology`.  Returns the mutated system and `true` on
`Ok(())`; on a construction failure it returns the partially mutated system
(retain applied, loop aborted, topology snapshot left unchanged) and
`false`. -/
def updateFromTopology (construct : SpeakerInfo → Option Speaker)
    (sys : System) (topology : Topology) : System × Bool :=
  let infos := memberInfos topology
  let retained := retainSpeakers infos sys.speakerdata
  match applyInfos construct retained infos with
  | (sds, true) => ({ speakerdata := sds, topology := topology }, true)
  | (sds, false) => ({ speakerdata := sds, topology := sys.topology }, false)

/-! ### Lemmas about `update_from_topology` -/

theorem eqIgnoreAsciiCase_congr_left {a b : String}
    (h : eqIgnoreAsciiCase a b = true) (u : String) :
    eqIgnoreAsciiCase a u = eqIgnoreAsciiCase b u := by
  rw [eqIgnoreAsciiCase_iff] at h
  simp [eqIgnoreAsciiCase, h]

/-- `updateExisting` rewrites name and location only: the UUID column of the
registry is unchanged. -/
theorem updateExisting_map_uuid (info : SpeakerInfo) :
    ∀ sds sds1, updateExisting info sds = some sds1 →
      sds1.map (fun sd => sd.speaker.uuid) = sds.map (fun sd => sd.speaker.uuid) := by
  intro sds
  induction sds with
  | nil => intro sds1 h; simp [updateExisting] at h
  | cons sd rest ih =>
    intro sds1 h
    by_cases hc : eqIgnoreAsciiCase sd.speaker.uuid info.uuid = true
    · simp [updateExisting, hc] at h
      subst h; simp
    · simp [updateExisting, hc] at h
      obtain ⟨sds2, h2, rfl⟩ := h
      simp [ih sds2 h2]

/-- `registryHasUuid` factors through the UUID column. -/
theorem registryHasUuid_eq_any_map (sds : List SpeakerData) (u : String) :
    registryHasUuid sds u =
      (sds.map (fun sd => sd.speaker.uuid)).any (fun s => eqIgnoreAsciiCase s u) := by
  induction sds with
  | nil => rfl
  | cons sd rest ih =>
    unfold registryHasUuid at ih ⊢
    simp only [List.map_cons, List.any_cons]
    rw [ih]

/-- `registryHasUuid` only looks at the UUID column. -/
theorem registryHasUuid_of_map_uuid {sds sds1 : List SpeakerData}
    (h : sds1.map (fun sd => sd.speaker.uuid) = sds.map (fun sd => sd.speaker.uuid))
    (u : String) : registryHasUuid sds1 u = registryHasUuid sds u := by
  rw [registryHasUuid_eq_any_map, registryHasUuid_eq_any_map, h]

/-- `updateExisting` succeeds exactly on UUIDs already present. -/
theorem updateExisting_isSome_imp (info : SpeakerInfo) :
    ∀ sds, (updateExisting info sds).isSome = true →
      registryHasUuid sds info.uuid = true := by
  intro sds
  induction sds with
  | nil => intro h; simp [updateExisting] at h
  | cons sd rest ih =>
    intro h
    by_cases hc : eqIgnoreAsciiCase sd.speaker.uuid info.uuid = true
    · simp [registryHasUuid, hc]
    · simp [updateExisting, hc] at h
      have := ih h
      simp [registryHasUuid] at this ⊢
      exact Or.inr this

theorem registryHasUuid_append (sds1 sds2 : List SpeakerData) (u : String) :
    registryHasUuid (sds1 ++ sds2) u =
      (registryHasUuid sds1 u || registryHasUuid sds2 u) := by
  simp [registryHasUuid]

/-- Main loop invariant: when the `for` loop of `update_from_topology` runs to
completion, the final registry holds a UUID iff the initial registry held it
or some processed info carries it (case-insensitively).  Assumes the external
`Speaker::from_speaker_info` returns a speaker whose UUID matches the info's
UUID, which is the library's contract. -/
theorem applyInfos_registryHasUuid (construct : SpeakerInfo → Option Speaker)
    (hc : ∀ info sp, construct info = some sp →
      eqIgnoreAsciiCase sp.uuid info.uuid = true) :
    ∀ (l : List SpeakerInfo) (sds sds1 : List SpeakerData),
      applyInfos construct sds l = (sds1, true) →
      ∀ u, registryHasUuid sds1 u = (registryHasUuid sds u || infosHaveUuid l u) := by
  intro l
  induction l with
  | nil =>
    intro sds sds1 h u
    simp [applyInfos] at h
    subst h; simp [infosHaveUuid]
  | cons info rest ih =>
    intro sds sds1 h u
    unfold applyInfos at h
    cases hup : updateExisting info sds with
    | some sds2 =>
      rw [hup] at h
      have hmap := updateExisting_map_uuid info sds sds2 hup
      have h2 := ih sds2 sds1 h u
      rw [registryHasUuid_of_map_uuid hmap] at h2
      by_cases hiu : eqIgnoreAsciiCase info.uuid u = true
      · have hpresent : registryHasUuid sds info.uuid = true :=
          updateExisting_isSome_imp info sds (by rw [hup]; rfl)
        have : registryHasUuid sds u = true := by
          simp [registryHasUuid] at hpresent ⊢
          obtain ⟨sd, hsd, hq⟩ := hpresent
          exact ⟨sd, hsd, eqIgnoreAsciiCase_trans hq hiu⟩
        simp [h2, this, infosHaveUuid]
      · simp at hiu
        simp [h2, infosHaveUuid, hiu]
    | none =>
      rw [hup] at h
      cases hcon : construct info with
      | some sp =>
        rw [hcon] at h
        have h2 := ih _ sds1 h u
        rw [registryHasUuid_append] at h2
        have hspu : eqIgnoreAsciiCase sp.uuid u = eqIgnoreAsciiCase info.uuid u :=
          eqIgnoreAsciiCase_congr_left (hc info sp hcon) u
        rw [h2]
        simp [registryHasUuid, SpeakerData.new, hspu, infosHaveUuid, Bool.or_assoc]
      | none => rw [hcon] at h; simp at h


/-- Records surviving the `retain` step all match some info of the topology. -/
theorem retainSpeakers_registryHasUuid {infos : List SpeakerInfo}
    {sds : List SpeakerData} {u : String}
    (h : registryHasUuid (retainSpeakers infos sds) u = true) :
    infosHaveUuid infos u = true := by
  unfold registryHasUuid retainSpeakers at h
  rw [List.any_eq_true] at h
  obtain ⟨sd, hmem, hq⟩ := h
  rw [List.mem_filter] at hmem
  obtain ⟨_, hin⟩ := hmem
  rw [List.any_eq_true] at hin
  obtain ⟨info, hinfo, hiq⟩ := hin
  unfold infosHaveUuid
  rw [List.any_eq_true]
  exact ⟨info, hinfo, eqIgnoreAsciiCase_trans hiq hq⟩

/-! ### C1 -/

/-- Concrete inputs for the C1 counterexample: the registry holds one stale
speaker `OLD`; the incoming topology has one group with members `Y` and `Z`;
`Speaker::from_speaker_info` fails for `Y` (the device refuses its own
description) and would succeed for `Z`. -/
def c1Construct : SpeakerInfo → Option Speaker := fun info =>
  if info.uuid = "Y" then none
  else some { uuid := info.uuid, name := info.name, location := info.location }

def c1OldTopology : Topology :=
  [("OLD", [{ uuid := "OLD", name := "Old", location := "http://old" }])]

def c1Sys : System :=
  { speakerdata :=
      [{ speaker := { uuid := "OLD", name := "Old", location := "http://old" },
         transport_data := [] }],
    topology := c1OldTopology }

def c1NewTopology : Topology :=
  [("C", [{ uuid := "Y", name := "RoomY", location := "http://y" },
          { uuid := "Z", name := "RoomZ", location := "http://z" }])]

/-- C1 (counterexample): with registry `{OLD}` and a new topology whose
members are `Y` (whose descriptor construction fails) and `Z` (whose
construction would succeed), `update_from_topology` returns an error having
applied only the removal: `Z` is *not* added (so the registry UUID set `{}`
differs from the topology's member set `{Y, Z}` even after dropping `Y`), and
the stored topology snapshot is *not* replaced — contradicting the claim that
the failing entry alone is dropped silently and the rest of the update is
still fully applied. -/
theorem update_from_topology_abort_cex :
    (updateFromTopology c1Construct c1Sys c1NewTopology).2 = false ∧
    registryHasUuid (updateFromTopology c1Construct c1Sys c1NewTopology).1.speakerdata "Z"
      = false ∧
    infosHaveUuid (memberInfos c1NewTopology) "Z" = true ∧
    (updateFromTopology c1Construct c1Sys c1NewTopology).1.topology = c1OldTopology ∧
    c1OldTopology ≠ c1NewTopology := by
  refine ⟨by decide, by decide, by decide, by decide, by decide⟩

/-- C1 (amended): whenever `update_from_topology` succeeds (every new UUID's
descriptor construction succeeded), the registry UUID set afterwards equals —
under case-insensitive comparison — the set of member UUIDs of the applied
topology, and the stored snapshot is replaced by it.  When a construction
fails the call instead returns an error with the update only partially
applied (see the counterexample).  Assumes `Speaker::from_speaker_info`
returns a speaker carrying the info's UUID. -/
theorem update_from_topology_registry_eq
    (construct : SpeakerInfo → Option Speaker)
    (hc : ∀ info sp, construct info = some sp →
      eqIgnoreAsciiCase sp.uuid info.uuid = true)
    (sys sys1 : System) (topology : Topology)
    (h : updateFromTopology construct sys topology = (sys1, true)) :
    (∀ u, registryHasUuid sys1.speakerdata u
      = infosHaveUuid (memberInfos topology) u) ∧
    sys1.topology = topology := by
  have h2 :
      (match applyInfos construct
          (retainSpeakers (memberInfos topology) sys.speakerdata) (memberInfos topology) with
        | (sds, true) => (({ speakerdata := sds, topology := topology } : System), true)
        | (sds, false) => (({ speakerdata := sds, topology := sys.topology } : System), false))
        = (sys1, true) := h
  clear h
  cases hap : applyInfos construct
      (retainSpeakers (memberInfos topology) sys.speakerdata) (memberInfos topology) with
  | mk sds flag =>
    rw [hap] at h2
    cases flag with
    | false => simp at h2
    | true =>
      simp only [Prod.mk.injEq] at h2
      obtain ⟨rfl, -⟩ := h2
      refine ⟨fun u => ?_, rfl⟩
      have hmain := applyInfos_registryHasUuid construct hc (memberInfos topology) _ _ hap u
      simp only at hmain
      rw [hmain]
      cases hret : registryHasUuid (retainSpeakers (memberInfos topology) sys.speakerdata) u with
      | false => simp
      | true => simp [retainSpeakers_registryHasUuid hret]

/-- The topology used by the C1 witness: a single new speaker `A`. -/
def c1ATopology : Topology :=
  [("A", [{ uuid := "A", name := "RoomA", location := "http://a" }])]

/-- What the C1 witness update produces. -/
def c1ASys : System :=
  { speakerdata :=
      [{ speaker := { uuid := "A", name := "RoomA", location := "http://a" },
         transport_data := [] }],
    topology := c1ATopology }

/-- C1 (witness): the amended theorem applied to a concrete successful update
(empty registry, one new speaker `A`). -/
theorem update_from_topology_registry_eq_witness :
    (∀ u, registryHasUuid c1ASys.speakerdata u
      = infosHaveUuid (memberInfos c1ATopology) u) ∧
    c1ASys.topology = c1ATopology := by
  have hc : ∀ info sp, c1Construct info = some sp →
      eqIgnoreAsciiCase sp.uuid info.uuid = true := by
    intro info sp h
    unfold c1Construct at h
    by_cases hy : info.uuid = "Y"
    · simp [hy] at h
    · simp [hy] at h
      rw [← h]
      exact eqIgnoreAsciiCase_refl _
  exact update_from_topology_registry_eq c1Construct hc
    { speakerdata := [], topology := [] } c1ASys c1ATopology (by decide)

/-! ## Registry and topology look-ups (controller.rs lines 389–457) -/

/-- `Controller::get_speaker_with_name`: first registry record whose room name
matches case-insensitively. -/
def getSpeakerWithName (sys : System) (name : String) : Option Speaker :=
  sys.speakerdata.findSome? fun s =>
    if eqIgnoreAsciiCase s.speaker.name name then some s.speaker else none

/-- `Controller::get_speaker_by_uuid`. -/
def getSpeakerByUuid (sys : System) (uuid : String) : Option Speaker :=
  sys.speakerdata.findSome? fun s =>
    if eqIgnoreAsciiCase s.speaker.uuid uuid then some s.speaker else none

/-- `Controller::get_speakerdata_by_uuid`. -/
def getSpeakerDataByUuid (sys : System) (uuid : String) : Option SpeakerData :=
  sys.speakerdata.find? fun s => eqIgnoreAsciiCase s.speaker.uuid uuid

/-- The topology walk shared by `get_coordinator_for_uuid` and
`get_coordinatordata_for_uuid`: the coordinator UUID of the first group one
of whose member infos carries `speaker_uuid` (case-insensitively).  The Rust
`uuids.iter().find(..).and(Some(coordinator_uuid))` is the same test as
`any`. -/
def coordinatorUuidForUuid (sys : System) (speaker_uuid : String) : Option String :=
  sys.topology.findSome? fun p =>
    if p.2.any (fun info => eqIgnoreAsciiCase info.uuid speaker_uuid) then
      some p.1
    else none

/-- `Controller::get_coordinator_for_uuid`. -/
def getCoordinatorForUuid (sys : System) (speaker_uuid : String) : Option Speaker :=
  (coordinatorUuidForUuid sys speaker_uuid).bind fun cu => getSpeakerByUuid sys cu

/-- `Controller::get_coordinatordata_for_uuid`. -/
def getCoordinatorDataForUuid (sys : System) (speaker_uuid : String) :
    Option SpeakerData :=
  (coordinatorUuidForUuid sys speaker_uuid).bind fun cu => getSpeakerDataByUuid sys cu

/-- `Controller::get_coordinator_for_name`. -/
def getCoordinatorForName (sys : System) (name : String) : Option Speaker :=
  (getSpeakerWithName sys name).bind fun sp => getCoordinatorForUuid sys sp.uuid

/-- `Controller::get_coordinatordata_for_name`. -/
def getCoordinatorDataForName (sys : System) (name : String) : Option SpeakerData :=
  (getSpeakerWithName sys name).bind fun sp => getCoordinatorDataForUuid sys sp.uuid

/-! ## URL-encoding and DIDL-Lite metadata (`metadata.rs`) -/

/-- Upper-case hex digit of a value below 16. -/
def hexDigitChar (n : Nat) : Char :=
  if n < 10 then Char.ofNat (48 + n) else Char.ofNat (55 + n)

/-- The UTF-8 bytes of one character (as `Nat`s below 256). -/
def utf8Bytes (c : Char) : List Nat :=
  let n := c.toNat
  if n < 0x80 then [n]
  else if n < 0x800 then
    [0xC0 + n / 64, 0x80 + n % 64]
  else if n < 0x10000 then
    [0xE0 + n / 4096, 0x80 + n / 64 % 64, 0x80 + n % 64]
  else
    [0xF0 + n / 262144, 0x80 + n / 4096 % 64, 0x80 + n / 64 % 64, 0x80 + n % 64]

/-- The characters `urlencoding::encode` leaves unreserved:
ASCII alphanumerics and `-`, `.`, `_`, `~`. -/
def isUrlUnreserved (c : Char) : Bool :=
  c.isAlphanum || c = '-' || c = '.' || c = '_' || c = '~'

/-- Percent-encode one character into its output characters. -/
def urlEncodeChar (c : Char) : List Char :=
  if isUrlUnreserved c then [c]
  else
    ((utf8Bytes c).map fun b => ['%', hexDigitChar (b / 16), hexDigitChar (b % 16)]).flatten

/-- `urlencoding::encode`. -/
def urlEncode (s : String) : String :=
  String.mk ((s.data.map urlEncodeChar).flatten)

/-- `metadata.rs::get_metadata`: the DIDL-Lite envelope template.  The
`format!` call is a pure string splice of the four arguments. -/
def get_metadata (id parent_id upnp_class cdudn : String) : String :=
  "<DIDL-Lite xmlns:dc=\"http://purl.org/dc/elements/1.1/\" xmlns:upnp=\"urn:schemas-upnp-org:metadata-1-0/upnp/\" xmlns:r=\"urn:schemas-rinconnetworks-com:metadata-1-0/\" xmlns=\"urn:schemas-upnp-org:metadata-1-0/DIDL-Lite/\">"
    ++ "<item id=\"" ++ id ++ "\" restricted=\"true\" parentID=\"" ++ parent_id ++ "\">"
    ++ "<upnp:class>" ++ upnp_class ++ "</upnp:class>"
    ++ "<desc id=\"cdudn\" nameSpace=\"urn:schemas-rinconnetworks-com:metadata-1-0/\">"
    ++ cdudn ++ "</desc>"
    ++ "</item>"
    ++ "</DIDL-Lite>"

/-- `format!("SA_RINCON{region}_X_#Svc{region}-0-Token")`. -/
def cdudnOf (region : String) : String :=
  "SA_RINCON" ++ region ++ "_X_#Svc" ++ region ++ "-0-Token"

/-- Rust `str::split_once` on character lists. -/
def splitOnceChars (sep : Char) : List Char → Option (List Char × List Char)
  | [] => none
  | c :: rest =>
    if c = sep then some ([], rest)
    else (splitOnceChars sep rest).map fun p => (c :: p.1, p.2)

/-- Rust `s.split_once(sep)`. -/
def splitOnce (s : String) (sep : Char) : Option (String × String) :=
  (splitOnceChars sep s.data).map fun p => (String.mk p.1, String.mk p.2)

/-- `metadata.rs::spotify_uri_and_metadata`. -/
def spotify_uri_and_metadata (item : String) : Option (String × String) :=
  match splitOnce item ':' with
  | none => none
  | some (kind, _id) =>
    let enc := urlEncode ("spotify:" ++ item)
    let cdudn := cdudnOf "3079"
    if kind = "album" then
      some ("x-rincon-cpcontainer:0006206c" ++ enc ++ "?sid=12",
        get_metadata ("0004206c" ++ enc) "" "object.container.album.musicAlbum" cdudn)
    else if kind = "track" then
      some ("x-sonos-spotify:" ++ enc ++ "?sid=12",
        get_metadata ("00030020" ++ enc) "" "object.item.audioItem.musicTrack" cdudn)
    else if kind = "playlist" then
      some ("x-rincon-cpcontainer:0006206c" ++ enc ++ "??sid=12",
        get_metadata ("0004206c" ++ enc) "" "object.container.playlistContainer" cdudn)
    else none

/-- `metadata.rs::apple_uri_and_metadata` (`track` is renamed `song` before
the match, and the encoded item is rebuilt from the renamed kind). -/
def apple_uri_and_metadata (item : String) : Option (String × String) :=
  match splitOnce item ':' with
  | none => none
  | some (kind0, id) =>
    let kind := if kind0 = "track" then "song" else kind0
    let enc := urlEncode (kind ++ ":" ++ id)
    let cdudn := cdudnOf "52231"
    if kind = "album" ∨ kind = "libraryalbum" then
      some ("x-rincon-cpcontainer:0004206c" ++ enc ++ "?sid=204",
        get_metadata ("0004206c" ++ enc) "00020000album%3A"
          "object.item.audioItem.musicAlbum" cdudn)
    else if kind = "song" ∨ kind = "librarytrack" then
      some ("x-sonos-http:" ++ enc ++ ".mp4?sid=204",
        get_metadata ("10032020" ++ enc) "1004206calbum%3A"
          "object.item.audioItem.musicTrack" cdudn)
    else if kind = "playlist" ∨ kind = "libraryplaylist" then
      some ("x-rincon-cpcontainer:1006206c" ++ enc ++ "?sid=204",
        get_metadata ("1006206c" ++ enc) "00020000playlist%3A"
          "object.container.playlistContainer" cdudn)
    else none

/-! ### C8 -/

set_option maxRecDepth 10000 in
/-- C8 (confirmed): on input `track:4LI1ykYGFCcXPWkrpcU7hn` the Spotify
constructor returns exactly the URI
`x-sonos-spotify:spotify%3Atrack%3A4LI1ykYGFCcXPWkrpcU7hn?sid=12` and,
byte-for-byte, the DIDL-Lite document with item id
`00030020spotify%3Atrack%3A4LI1ykYGFCcXPWkrpcU7hn`, empty parentID, class
`object.item.audioItem.musicTrack` and cdudn
`SA_RINCON3079_X_#Svc3079-0-Token`. -/
theorem spotify_track_uri_and_metadata_exact :
    spotify_uri_and_metadata "track:4LI1ykYGFCcXPWkrpcU7hn" =
      some ("x-sonos-spotify:spotify%3Atrack%3A4LI1ykYGFCcXPWkrpcU7hn?sid=12",
        "<DIDL-Lite xmlns:dc=\"http://purl.org/dc/elements/1.1/\" xmlns:upnp=\"urn:schemas-upnp-org:metadata-1-0/upnp/\" xmlns:r=\"urn:schemas-rinconnetworks-com:metadata-1-0/\" xmlns=\"urn:schemas-upnp-org:metadata-1-0/DIDL-Lite/\"><item id=\"00030020spotify%3Atrack%3A4LI1ykYGFCcXPWkrpcU7hn\" restricted=\"true\" parentID=\"\"><upnp:class>object.item.audioItem.musicTrack</upnp:class><desc id=\"cdudn\" nameSpace=\"urn:schemas-rinconnetworks-com:metadata-1-0/\">SA_RINCON3079_X_#Svc3079-0-Token</desc></item></DIDL-Lite>") := by
  rfl

/-! ## Responses and the `Exists` arm (`types.rs`, `zoneaction.rs` lines 130–140) -/

/-- `types.rs::Response`.  The `Snapshot` and `Queue` payloads are opaque
values owned by the UPnP library and are irrelevant to every claim settled
here, so the variants are modelled payload-free. -/
inductive Response where
  | ok
  | notOk
  | snapshot
  | queue
deriving DecidableEq, Repr

/-- The `Exists` arm of `ZoneAction::handle_action`: reply `Ok(())` when some
registry record's room name equals the requested name (Rust `==` on strings,
hence byte-exact), `NotOk` otherwise. -/
def existsAction (sys : System) (name : String) : Response :=
  if sys.speakerdata.any (fun s => s.speaker.name = name) then Response.ok
  else Response.notOk

/-! ### C4 -/

/-- A registry holding a single speaker named `Kitchen`. -/
def c4Sys : System :=
  { speakerdata :=
      [{ speaker := { uuid := "K1", name := "Kitchen", location := "http://k" },
         transport_data := [] }],
    topology := [("K1", [{ uuid := "K1", name := "Kitchen", location := "http://k" }])] }

/-- C4 (counterexample): with a speaker named `Kitchen` in the registry, the
`Exists` action for `kitchen` replies `NotOk`, although a registry record has
that name under case-insensitive comparison (and the Registry name look-up
`get_speaker_with_name` does find it) — so the `Exists` comparison is *not*
case-insensitive as claimed. -/
theorem exists_action_case_sensitive_cex :
    existsAction c4Sys "kitchen" = Response.notOk ∧
    (getSpeakerWithName c4Sys "kitchen").isSome = true ∧
    (c4Sys.speakerdata.any fun s => eqIgnoreAsciiCase s.speaker.name "kitchen") = true := by
  refine ⟨by decide, by decide, by decide⟩

/-- C4 (amended): the `Exists` action replies `Ok` exactly when some speaker
record in the Registry has the requested name under *byte-exact* (hence
case-sensitive) comparison — unlike the Registry name look-ups used by every
other action, which are case-insensitive. -/
theorem exists_action_exact_name (sys : System) (name : String) :
    existsAction sys name = Response.ok ↔
      ∃ sd ∈ sys.speakerdata, sd.speaker.name = name := by
  unfold existsAction
  split
  · rename_i h
    simp only [List.any_eq_true, decide_eq_true_eq] at h
    simp [h]
  · rename_i h
    simp only [List.any_eq_true, decide_eq_true_eq] at h
    constructor
    · intro hcontra; exact absurd hcontra (by decide)
    · intro hex; exact absurd hex h

/-! ## Remote calls and the external-world oracle

The dispatcher's effect on the system is the sequence of SOAP calls it makes
against speakers.  A call is recorded as `(target-uuid, RCall)`; whether a
call succeeds, and the payloads the external library returns, are supplied by
an `Env` oracle. -/

/-- `sonor::RepeatMode`. -/
inductive RepeatMode where
  | none
  | one
  | all
deriving DecidableEq, Repr

/-- One remote (SOAP) call on a speaker, with the arguments the code passes. -/
inductive RCall where
  | play
  | pause
  | playOrPause
  | next
  | previous
  | skipTo (seconds : Nat)
  | seekTrack (n : Nat)
  | setRepeatMode (m : RepeatMode)
  | setShuffle (b : Bool)
  | setCrossfade (b : Bool)
  | setPlaybackMode (m : RepeatMode) (b : Bool)
  | clearQueue
  | queue
  | snapshot
  | applySnapshot
  | setVolumeRelative (d : Int)
  | queueNext (uri : String) (metadata : String) (position : Nat)
  | setTransportUri (uri : String) (metadata : String)
  | track
  | browse (container : String)
deriving DecidableEq, Repr

/-- One entry of a content-directory browse result (`sonor::Track`-like item:
title, optional `res` URI, optional `resMD` metadata). -/
structure BrowseItem where
  title : String
  uri : Option String
  metadata : Option String
deriving DecidableEq, Repr

/-- The external world: which remote calls succeed, the payload of a
successful `track()` query (`None` when nothing is playing), and the items a
successful browse returns per container id. -/
structure Env where
  ok : RCall → Bool
  trackResult : Option Nat
  browseResult : String → List BrowseItem

/-! ## `SpeakerData::get_current_track_no` (controller.rs lines 44–61) -/

/-- `i32::MAX`, the bound of the `try_into` in `seek_rel_track`. -/
def I32_MAX : Nat := 2 ^ 31 - 1

/-- Two's-complement reduction of an integer into the `i32` range, i.e. the
value an `i32` addition produces when it wraps (Rust release builds; a debug
build would panic on the overflowing addition instead). -/
def wrapI32 (n : Int) : Int :=
  (n + 2147483648) % 4294967296 - 2147483648

/-- `wrapI32` is the identity on the `i32` range: a non-overflowing `i32`
addition computes the mathematical sum. -/
theorem wrapI32_eq_self (n : Int) (hlo : -2147483648 ≤ n) (hhi : n ≤ 2147483647) :
    wrapI32 n = n := by
  unfold wrapI32
  omega

/-- `SpeakerData::get_current_track_no`: prefer the cached AV-transport value
under key `CurrentTrack` (case-insensitive key compare; a cached value that
fails to parse is `Err(ContentNotFound)`), else issue a live `track()` query
(`Ok(None)` counts as 0; a transport error is `Err`).  Returns the remote
calls made and `none` for the `Err` cases. -/
def getCurrentTrackNo (env : Env) (sd : SpeakerData) :
    List (String × RCall) × Option Nat :=
  match sd.transport_data.find? (fun kv => eqIgnoreAsciiCase kv.1 "CurrentTrack") with
  | some kv => ([], parseU32 kv.2)
  | none =>
    ([(sd.speaker.uuid, RCall.track)],
      if env.ok RCall.track then some (env.trackResult.getD 0) else none)

/-! ## `ZoneActionSignedNExt::seek_rel_track` (zoneaction.rs lines 193–211) -/

/-- `seek_rel_track` for `i32`: get the current track number (`?` propagates
its failure), convert to `i32` (`Err(ZoneActionError)` above `i32::MAX`), add
the delta with `i32` arithmetic — `cur_track_no + self` wraps on overflow
(release semantics, via `wrapI32`; a debug build would panic there) — clamp
below at 1, and seek.  Returns the calls made and whether the action
returned `Ok`. -/
def seekRelTrack (env : Env) (d : Int) (sd : SpeakerData) :
    List (String × RCall) × Bool :=
  let p := getCurrentTrackNo env sd
  match p.2 with
  | Option.none => (p.1, false)
  | some cur =>
    if cur ≤ I32_MAX then
      let target : Int := wrapI32 ((cur : Int) + d)
      if target < 1 then
        (p.1 ++ [(sd.speaker.uuid, RCall.seekTrack 1)], env.ok (RCall.seekTrack 1))
      else
        (p.1 ++ [(sd.speaker.uuid, RCall.seekTrack target.toNat)],
          env.ok (RCall.seekTrack target.toNat))
    else (p.1, false)

/-! ## `MediaSource` (`mediasource.rs`) -/

/-- `mediasource.rs::MediaSource`. -/
inductive MediaSource where
  | apple (item : String)
  | spotify (item : String)
  | sonosPlaylist (item : String)
  | sonosFavorite (item : String)
deriving DecidableEq, Repr

/-- `MediaSource::get_uri_and_metadata`: Apple and Spotify items resolve
purely via `metadata.rs`; Sonos playlists browse `SQ:` and return the item's
URI with empty metadata; Sonos favorites browse `FV:2` and return the item's
URI and `resMD` metadata (each `?` on a missing field yields `None`). -/
def getUriAndMetadata (env : Env) (speaker : Speaker) (media : MediaSource) :
    List (String × RCall) × Option (String × String) :=
  match media with
  | MediaSource.apple item => ([], apple_uri_and_metadata item)
  | MediaSource.spotify item => ([], spotify_uri_and_metadata item)
  | MediaSource.sonosPlaylist item =>
    let tr := [(speaker.uuid, RCall.browse "SQ:")]
    if env.ok (RCall.browse "SQ:") then
      match (env.browseResult "SQ:").find? (fun p => eqIgnoreAsciiCase p.title item) with
      | Option.none => (tr, Option.none)
      | some p =>
        match p.uri with
        | Option.none => (tr, Option.none)
        | some uri => (tr, some (uri, ""))
    else (tr, Option.none)
  | MediaSource.sonosFavorite item =>
    let tr := [(speaker.uuid, RCall.browse "FV:2")]
    if env.ok (RCall.browse "FV:2") then
      match (env.browseResult "FV:2").find? (fun p => eqIgnoreAsciiCase p.title item) with
      | Option.none => (tr, Option.none)
      | some p =>
        match p.uri, p.metadata with
        | some uri, some md => (tr, some (uri, md))
        | _, _ => (tr, Option.none)
    else (tr, Option.none)

/-- `MediaSource::play_now`: resolve the item on the coordinator, then
clear-queue, queue-next at position 1 with the PCDATA-escaped metadata
(`esc` models `sonor::utils::escape_str_pcdata`, an external library
function), set the transport URI to the coordinator's queue with empty
metadata, and play; each `?` stops at the first failing call. -/
def playNow (env : Env) (esc : String → String) (media : MediaSource)
    (cd : SpeakerData) : List (String × RCall) × Bool :=
  let u := cd.speaker.uuid
  let p := getUriAndMetadata env cd.speaker media
  match p.2 with
  | Option.none => (p.1, false)
  | some (uri, md) =>
    if env.ok RCall.clearQueue = false then
      (p.1 ++ [(u, RCall.clearQueue)], false)
    else if env.ok (RCall.queueNext uri (esc md) 1) = false then
      (p.1 ++ [(u, RCall.clearQueue), (u, RCall.queueNext uri (esc md) 1)], false)
    else if env.ok (RCall.setTransportUri ("x-rincon-queue:" ++ u ++ "#0") "") = false then
      (p.1 ++ [(u, RCall.clearQueue), (u, RCall.queueNext uri (esc md) 1),
        (u, RCall.setTransportUri ("x-rincon-queue:" ++ u ++ "#0") "")], false)
    else
      (p.1 ++ [(u, RCall.clearQueue), (u, RCall.queueNext uri (esc md) 1),
        (u, RCall.setTransportUri ("x-rincon-queue:" ++ u ++ "#0") ""),
        (u, RCall.play)], env.ok RCall.play)

/-- `MediaSource::queue_as_next`: read the current track number first
(`unwrap_or(0)` turns any failure into 0), then resolve the item, then
enqueue it right after the current track.  The position `cur_track_no + 1`
is a `u32` addition: it wraps modulo `2^32` on overflow (release semantics;
a debug build would panic there). -/
def queueAsNext (env : Env) (esc : String → String) (media : MediaSource)
    (cd : SpeakerData) : List (String × RCall) × Bool :=
  let u := cd.speaker.uuid
  let p1 := getCurrentTrackNo env cd
  let cur := p1.2.getD 0
  let pos := (cur + 1) % 4294967296
  let p2 := getUriAndMetadata env cd.speaker media
  match p2.2 with
  | Option.none => (p1.1 ++ p2.1, false)
  | some (uri, md) =>
    (p1.1 ++ p2.1 ++ [(u, RCall.queueNext uri (esc md) pos)],
      env.ok (RCall.queueNext uri (esc md) pos))

/-! ## The Zone Action Dispatcher (`zoneaction.rs`) -/

/-- `zoneaction.rs::ZoneAction`.  The `ApplySnapshot` payload is an opaque
library value and is modelled payload-free. -/
inductive ZoneAction where
  | Exists
  | PlayNow (media : MediaSource)
  | QueueAsNext (media : MediaSource)
  | Play
  | Pause
  | PlayPause
  | NextTrack
  | PreviousTrack
  | SeekTime (seconds : Nat)
  | SeekTrack (number : Nat)
  | SeekRelTrack (number : Int)
  | SetRepeat (mode : RepeatMode)
  | SetShuffle (state : Bool)
  | SetCrossfade (state : Bool)
  | SetPlayMode (mode : RepeatMode) (state : Bool)
  | ClearQueue
  | GetQueue
  | TakeSnapshot
  | ApplySnapshot
  | SetRelVolume (number : Int)
deriving DecidableEq, Repr

/-- The shared shape of the `data_action!`/`controller_action!` macros for a
single-call arm: resolve the coordinator by room name; on `None`, reply
`NotOk` with no remote call; otherwise attempt the one call and reply `res`
on success and `NotOk` on failure. -/
def simpleCoordCall (env : Env) (sys : System) (name : String) (c : RCall)
    (res : Response) : List (String × RCall) × Response :=
  match getCoordinatorForName sys name with
  | Option.none => ([], Response.notOk)
  | some coordinator =>
    ([(coordinator.uuid, c)], if env.ok c then res else Response.notOk)

/-- The same shape for the three arms that resolve the coordinator's
`SpeakerData` (`PlayNow`, `QueueAsNext`, `SeekRelTrack`), whose body is a
compound call sequence returning a success flag. -/
def dataCoordCall (sys : System) (name : String)
    (body : SpeakerData → List (String × RCall) × Bool) :
    List (String × RCall) × Response :=
  match getCoordinatorDataForName sys name with
  | Option.none => ([], Response.notOk)
  | some cd =>
    let p := body cd
    (p.1, if p.2 then Response.ok else Response.notOk)

/-- `ZoneAction::handle_action`: the full dispatch.  `esc` models
`escape_str_pcdata`. -/
def handleAction (env : Env) (esc : String → String) (sys : System)
    (action : ZoneAction) (name : String) : List (String × RCall) × Response :=
  match action with
  | ZoneAction.PlayNow media => dataCoordCall sys name (playNow env esc media)
  | ZoneAction.QueueAsNext media => dataCoordCall sys name (queueAsNext env esc media)
  | ZoneAction.Play => simpleCoordCall env sys name RCall.play Response.ok
  | ZoneAction.Pause => simpleCoordCall env sys name RCall.pause Response.ok
  | ZoneAction.PlayPause => simpleCoordCall env sys name RCall.playOrPause Response.ok
  | ZoneAction.NextTrack => simpleCoordCall env sys name RCall.next Response.ok
  | ZoneAction.PreviousTrack => simpleCoordCall env sys name RCall.previous Response.ok
  | ZoneAction.SeekTime seconds =>
    simpleCoordCall env sys name (RCall.skipTo seconds) Response.ok
  | ZoneAction.SeekTrack number =>
    simpleCoordCall env sys name (RCall.seekTrack number) Response.ok
  | ZoneAction.SeekRelTrack number => dataCoordCall sys name (seekRelTrack env number)
  | ZoneAction.SetRepeat mode =>
    simpleCoordCall env sys name (RCall.setRepeatMode mode) Response.ok
  | ZoneAction.SetShuffle state =>
    simpleCoordCall env sys name (RCall.setShuffle state) Response.ok
  | ZoneAction.SetCrossfade state =>
    simpleCoordCall env sys name (RCall.setCrossfade state) Response.ok
  | ZoneAction.SetPlayMode mode state =>
    simpleCoordCall env sys name (RCall.setPlaybackMode mode state) Response.ok
  | ZoneAction.ClearQueue => simpleCoordCall env sys name RCall.clearQueue Response.ok
  | ZoneAction.GetQueue => simpleCoordCall env sys name RCall.queue Response.queue
  | ZoneAction.TakeSnapshot =>
    simpleCoordCall env sys name RCall.snapshot Response.snapshot
  | ZoneAction.ApplySnapshot =>
    simpleCoordCall env sys name RCall.applySnapshot Response.ok
  | ZoneAction.Exists => ([], existsAction sys name)
  | ZoneAction.SetRelVolume number =>
    simpleCoordCall env sys name (RCall.setVolumeRelative number) Response.ok

/-! ### Look-up relations and trace-target lemmas -/

theorem findSome?_if_eq_find?_map {α β : Type} (p : α → Bool) (f : α → β) :
    ∀ l : List α,
      (l.findSome? fun a => if p a then some (f a) else Option.none)
        = (l.find? p).map f := by
  intro l
  induction l with
  | nil => rfl
  | cons a rest ih =>
    by_cases h : p a = true
    · simp [List.findSome?_cons, List.find?_cons, h]
    · simp [List.findSome?_cons, List.find?_cons, h, ih]

theorem getSpeakerByUuid_eq (sys : System) (u : String) :
    getSpeakerByUuid sys u
      = (getSpeakerDataByUuid sys u).map (fun sd => sd.speaker) := by
  unfold getSpeakerByUuid getSpeakerDataByUuid
  exact findSome?_if_eq_find?_map _ _ _

theorem getCoordinatorForUuid_eq (sys : System) (u : String) :
    getCoordinatorForUuid sys u
      = (getCoordinatorDataForUuid sys u).map (fun sd => sd.speaker) := by
  unfold getCoordinatorForUuid getCoordinatorDataForUuid
  cases coordinatorUuidForUuid sys u with
  | none => rfl
  | some cu => simp [getSpeakerByUuid_eq]

/-- `get_coordinator_for_name` returns exactly the speaker of the record
`get_coordinatordata_for_name` returns. -/
theorem getCoordinatorForName_eq (sys : System) (name : String) :
    getCoordinatorForName sys name
      = (getCoordinatorDataForName sys name).map (fun sd => sd.speaker) := by
  unfold getCoordinatorForName getCoordinatorDataForName
  cases getSpeakerWithName sys name with
  | none => rfl
  | some sp => simp [getCoordinatorForUuid_eq]

theorem getCurrentTrackNo_trace (env : Env) (sd : SpeakerData) :
    ∀ call ∈ (getCurrentTrackNo env sd).1, call.1 = sd.speaker.uuid := by
  intro call hc
  unfold getCurrentTrackNo at hc
  cases hfind : sd.transport_data.find? (fun kv => eqIgnoreAsciiCase kv.1 "CurrentTrack") with
  | none => rw [hfind] at hc; simp at hc; rw [hc]
  | some kv => rw [hfind] at hc; simp at hc

theorem getUriAndMetadata_trace (env : Env) (speaker : Speaker) (media : MediaSource) :
    ∀ call ∈ (getUriAndMetadata env speaker media).1, call.1 = speaker.uuid := by
  intro call hc
  cases media with
  | apple item => simp [getUriAndMetadata] at hc
  | spotify item => simp [getUriAndMetadata] at hc
  | sonosPlaylist item =>
    simp only [getUriAndMetadata] at hc
    split at hc
    · split at hc
      · simp at hc; rw [hc]
      · split at hc
        · simp at hc; rw [hc]
        · simp at hc; rw [hc]
    · simp at hc; rw [hc]
  | sonosFavorite item =>
    simp only [getUriAndMetadata] at hc
    split at hc
    · split at hc
      · simp at hc; rw [hc]
      · split at hc
        · simp at hc; rw [hc]
        · simp at hc; rw [hc]
    · simp at hc; rw [hc]

theorem seekRelTrack_trace (env : Env) (d : Int) (sd : SpeakerData) :
    ∀ call ∈ (seekRelTrack env d sd).1, call.1 = sd.speaker.uuid := by
  intro call hc
  simp only [seekRelTrack] at hc
  split at hc
  · exact getCurrentTrackNo_trace env sd call hc
  · split at hc
    · split at hc
      · rcases List.mem_append.mp hc with h | h
        · exact getCurrentTrackNo_trace env sd call h
        · simp at h; rw [h]
      · rcases List.mem_append.mp hc with h | h
        · exact getCurrentTrackNo_trace env sd call h
        · simp at h; rw [h]
    · exact getCurrentTrackNo_trace env sd call hc

theorem playNow_trace (env : Env) (esc : String → String) (media : MediaSource)
    (cd : SpeakerData) :
    ∀ call ∈ (playNow env esc media cd).1, call.1 = cd.speaker.uuid := by
  intro call hc
  simp only [playNow] at hc
  split at hc
  · exact getUriAndMetadata_trace env cd.speaker media call hc
  · split at hc
    · rcases List.mem_append.mp hc with h | h
      · exact getUriAndMetadata_trace env cd.speaker media call h
      · simp at h; rw [h]
    · split at hc
      · rcases List.mem_append.mp hc with h | h
        · exact getUriAndMetadata_trace env cd.speaker media call h
        · simp at h; rcases h with h | h <;> rw [h]
      · split at hc
        · rcases List.mem_append.mp hc with h | h
          · exact getUriAndMetadata_trace env cd.speaker media call h
          · simp at h; rcases h with h | h | h <;> rw [h]
        · rcases List.mem_append.mp hc with h | h
          · exact getUriAndMetadata_trace env cd.speaker media call h
          · simp at h; rcases h with h | h | h | h <;> rw [h]

theorem queueAsNext_trace (env : Env) (esc : String → String) (media : MediaSource)
    (cd : SpeakerData) :
    ∀ call ∈ (queueAsNext env esc media cd).1, call.1 = cd.speaker.uuid := by
  intro call hc
  simp only [queueAsNext] at hc
  split at hc
  · rcases List.mem_append.mp hc with h | h
    · exact getCurrentTrackNo_trace env cd call h
    · exact getUriAndMetadata_trace env cd.speaker media call h
  · rcases List.mem_append.mp hc with h | h
    · rcases List.mem_append.mp h with h1 | h1
      · exact getCurrentTrackNo_trace env cd call h1
      · exact getUriAndMetadata_trace env cd.speaker media call h1
    · simp at h; rw [h]

theorem simpleCoordCall_routing (env : Env) (sys : System) (name : String)
    (c : RCall) (res : Response) :
    (getCoordinatorDataForName sys name = Option.none →
      simpleCoordCall env sys name c res = ([], Response.notOk)) ∧
    (∀ cd, getCoordinatorDataForName sys name = some cd →
      ∀ call ∈ (simpleCoordCall env sys name c res).1, call.1 = cd.speaker.uuid) := by
  constructor
  · intro h
    unfold simpleCoordCall
    rw [getCoordinatorForName_eq, h]
    rfl
  · intro cd h call hc
    unfold simpleCoordCall at hc
    rw [getCoordinatorForName_eq, h] at hc
    simp at hc
    rw [hc]

theorem dataCoordCall_routing (sys : System) (name : String)
    (body : SpeakerData → List (String × RCall) × Bool)
    (hbody : ∀ cd : SpeakerData, ∀ call ∈ (body cd).1, call.1 = cd.speaker.uuid) :
    (getCoordinatorDataForName sys name = Option.none →
      dataCoordCall sys name body = ([], Response.notOk)) ∧
    (∀ cd, getCoordinatorDataForName sys name = some cd →
      ∀ call ∈ (dataCoordCall sys name body).1, call.1 = cd.speaker.uuid) := by
  constructor
  · intro h
    unfold dataCoordCall
    rw [h]
  · intro cd h call hc
    unfold dataCoordCall at hc
    rw [h] at hc
    exact hbody cd call hc

/-! ### C2 -/

/-- C2 (confirmed): for every action other than `Exists`, the dispatcher
resolves the room name through name → speaker record → coordinator UUID →
coordinator record (`get_coordinatordata_for_name`, whose speaker is exactly
what `get_coordinator_for_name` returns); when that three-step resolution
yields `None` it replies `NotOk` having made no remote call, and when it
yields a coordinator record every remote call of the dispatch targets that
record's UUID. -/
theorem handle_action_coordinator_routing (env : Env) (esc : String → String)
    (sys : System) (action : ZoneAction) (name : String)
    (hne : action ≠ ZoneAction.Exists) :
    (getCoordinatorDataForName sys name = Option.none →
      handleAction env esc sys action name = ([], Response.notOk)) ∧
    (∀ cd, getCoordinatorDataForName sys name = some cd →
      ∀ call ∈ (handleAction env esc sys action name).1, call.1 = cd.speaker.uuid) := by
  cases action with
  | Exists => exact absurd rfl hne
  | PlayNow media =>
    exact dataCoordCall_routing sys name (playNow env esc media)
      (fun cd => playNow_trace env esc media cd)
  | QueueAsNext media =>
    exact dataCoordCall_routing sys name (queueAsNext env esc media)
      (fun cd => queueAsNext_trace env esc media cd)
  | SeekRelTrack number =>
    exact dataCoordCall_routing sys name (seekRelTrack env number)
      (fun cd => seekRelTrack_trace env number cd)
  | Play => exact simpleCoordCall_routing env sys name RCall.play Response.ok
  | Pause => exact simpleCoordCall_routing env sys name RCall.pause Response.ok
  | PlayPause => exact simpleCoordCall_routing env sys name RCall.playOrPause Response.ok
  | NextTrack => exact simpleCoordCall_routing env sys name RCall.next Response.ok
  | PreviousTrack => exact simpleCoordCall_routing env sys name RCall.previous Response.ok
  | SeekTime seconds =>
    exact simpleCoordCall_routing env sys name (RCall.skipTo seconds) Response.ok
  | SeekTrack number =>
    exact simpleCoordCall_routing env sys name (RCall.seekTrack number) Response.ok
  | SetRepeat mode =>
    exact simpleCoordCall_routing env sys name (RCall.setRepeatMode mode) Response.ok
  | SetShuffle state =>
    exact simpleCoordCall_routing env sys name (RCall.setShuffle state) Response.ok
  | SetCrossfade state =>
    exact simpleCoordCall_routing env sys name (RCall.setCrossfade state) Response.ok
  | SetPlayMode mode state =>
    exact simpleCoordCall_routing env sys name (RCall.setPlaybackMode mode state) Response.ok
  | ClearQueue => exact simpleCoordCall_routing env sys name RCall.clearQueue Response.ok
  | GetQueue => exact simpleCoordCall_routing env sys name RCall.queue Response.queue
  | TakeSnapshot =>
    exact simpleCoordCall_routing env sys name RCall.snapshot Response.snapshot
  | ApplySnapshot =>
    exact simpleCoordCall_routing env sys name RCall.applySnapshot Response.ok
  | SetRelVolume number =>
    exact simpleCoordCall_routing env sys name (RCall.setVolumeRelative number) Response.ok

/-- An environment in which every remote call succeeds. -/
def envAllOk : Env :=
  { ok := fun _ => true, trackResult := some 3, browseResult := fun _ => [] }

/-- C2 (witness): the routing theorem applied to the `Play` action against the
concrete one-speaker registry `c4Sys`. -/
theorem handle_action_coordinator_routing_witness :
    (getCoordinatorDataForName c4Sys "Kitchen" = Option.none →
      handleAction envAllOk id c4Sys ZoneAction.Play "Kitchen" = ([], Response.notOk)) ∧
    (∀ cd, getCoordinatorDataForName c4Sys "Kitchen" = some cd →
      ∀ call ∈ (handleAction envAllOk id c4Sys ZoneAction.Play "Kitchen").1,
        call.1 = cd.speaker.uuid) := by
  exact handle_action_coordinator_routing envAllOk id c4Sys ZoneAction.Play "Kitchen"
    (by decide)

/-! ### C3 -/

theorem getCurrentTrackNo_cached (env : Env) (sd : SpeakerData)
    (kv : String × String)
    (hfind : sd.transport_data.find? (fun kv => eqIgnoreAsciiCase kv.1 "CurrentTrack")
      = some kv) :
    getCurrentTrackNo env sd = ([], parseU32 kv.2) := by
  unfold getCurrentTrackNo
  rw [hfind]

theorem getCurrentTrackNo_live (env : Env) (sd : SpeakerData)
    (hfind : sd.transport_data.find? (fun kv => eqIgnoreAsciiCase kv.1 "CurrentTrack")
      = Option.none) :
    getCurrentTrackNo env sd = ([(sd.speaker.uuid, RCall.track)],
      if env.ok RCall.track then some (env.trackResult.getD 0) else Option.none) := by
  unfold getCurrentTrackNo
  rw [hfind]

theorem seekRelTrack_of_cur (env : Env) (d : Int) (sd : SpeakerData)
    (tr : List (String × RCall)) (cur : Nat)
    (hget : getCurrentTrackNo env sd = (tr, some cur)) (hle : cur ≤ I32_MAX)
    (hlo : -2147483648 ≤ (cur : Int) + d) (hhi : (cur : Int) + d ≤ 2147483647) :
    seekRelTrack env d sd =
      (tr ++ [(sd.speaker.uuid, RCall.seekTrack (max 1 ((cur : Int) + d)).toNat)],
        env.ok (RCall.seekTrack (max 1 ((cur : Int) + d)).toNat)) := by
  have hwrap : wrapI32 ((cur : Int) + d) = (cur : Int) + d :=
    wrapI32_eq_self _ hlo hhi
  simp only [seekRelTrack, hget, hwrap]
  by_cases hlt : ((cur : Int) + d) < 1
  · have hmax : max 1 ((cur : Int) + d) = 1 := max_eq_left (by omega)
    simp [hlt, hle, hmax]
  · have hmax : max 1 ((cur : Int) + d) = (cur : Int) + d := max_eq_right (by omega)
    simp [hlt, hle, hmax]

/-- A speaker record whose cached `CurrentTrack` value does not parse. -/
def c3SdBad : SpeakerData :=
  { speaker := { uuid := "U3", name := "Den", location := "http://u3" },
    transport_data := [("CurrentTrack", "borked")] }

/-- A speaker record with no cached `CurrentTrack` value. -/
def c3SdNoCache : SpeakerData :=
  { speaker := { uuid := "U3", name := "Den", location := "http://u3" },
    transport_data := [] }

/-- An environment in which the live `track()` query fails. -/
def envTrackFails : Env :=
  { ok := fun c => match c with | RCall.track => false | _ => true,
    trackResult := some 3,
    browseResult := fun _ => [] }

/-- C3 (counterexample): `SeekRelTrack(5)` issues *no* seek and the action
fails (a) when the cached `CurrentTrack` value is unparseable (the `?` on
`get_current_track_no` propagates `Err(ContentNotFound)`), and (b) when there
is no cached value and the live query fails — contradicting the claim that a
seek is still issued (with current defaulted to 0) in every such case. -/
theorem seek_rel_track_err_no_seek_cex :
    seekRelTrack envAllOk 5 c3SdBad = ([], false) ∧
    seekRelTrack envTrackFails 5 c3SdNoCache = ([("U3", RCall.track)], false) := by
  refine ⟨by decide, by decide⟩

/-- C3 (amended): `SeekRelTrack(d)` seeks the coordinator to track
`max(1, current + d)` only when a current track number is actually obtained:
from the cached `CurrentTrack` value when present and parseable, else from a
live query when it succeeds (a successful query reporting no track counts as
0).  When the cached value is present but unparseable, or the live query
fails, `get_current_track_no` returns `Err`, the `?` in `seek_rel_track`
propagates it, and no seek is issued — the action fails instead.  The
`cur ≤ I32_MAX` hypotheses mirror the `try_into::<i32>` bound, and the
`-2^31 ≤ current + d ≤ i32::MAX` hypotheses say the `i32` addition
`cur_track_no + self` does not overflow — on overflow the code instead wraps
(release) or panics (debug), see `wrapI32` in the definition. -/
theorem seek_rel_track_target (env : Env) (d : Int) (sd : SpeakerData) :
    (∀ kv cur,
      sd.transport_data.find? (fun kv => eqIgnoreAsciiCase kv.1 "CurrentTrack") = some kv →
      parseU32 kv.2 = some cur → cur ≤ I32_MAX →
      -2147483648 ≤ (cur : Int) + d → (cur : Int) + d ≤ 2147483647 →
      seekRelTrack env d sd =
        ([(sd.speaker.uuid, RCall.seekTrack (max 1 ((cur : Int) + d)).toNat)],
          env.ok (RCall.seekTrack (max 1 ((cur : Int) + d)).toNat))) ∧
    (sd.transport_data.find? (fun kv => eqIgnoreAsciiCase kv.1 "CurrentTrack") = Option.none →
      env.ok RCall.track = true → env.trackResult.getD 0 ≤ I32_MAX →
      -2147483648 ≤ (env.trackResult.getD 0 : Int) + d →
      (env.trackResult.getD 0 : Int) + d ≤ 2147483647 →
      seekRelTrack env d sd =
        ([(sd.speaker.uuid, RCall.track),
          (sd.speaker.uuid, RCall.seekTrack (max 1 ((env.trackResult.getD 0 : Int) + d)).toNat)],
          env.ok (RCall.seekTrack (max 1 ((env.trackResult.getD 0 : Int) + d)).toNat))) ∧
    (∀ kv,
      sd.transport_data.find? (fun kv => eqIgnoreAsciiCase kv.1 "CurrentTrack") = some kv →
      parseU32 kv.2 = Option.none →
      seekRelTrack env d sd = ([], false)) ∧
    (sd.transport_data.find? (fun kv => eqIgnoreAsciiCase kv.1 "CurrentTrack") = Option.none →
      env.ok RCall.track = false →
      seekRelTrack env d sd = ([(sd.speaker.uuid, RCall.track)], false)) := by
  refine ⟨?_, ?_, ?_, ?_⟩
  · intro kv cur hfind hparse hle hlo hhi
    have hget : getCurrentTrackNo env sd = ([], some cur) := by
      rw [getCurrentTrackNo_cached env sd kv hfind, hparse]
    have := seekRelTrack_of_cur env d sd [] cur hget hle hlo hhi
    simpa using this
  · intro hfind hok hle hlo hhi
    have hget : getCurrentTrackNo env sd
        = ([(sd.speaker.uuid, RCall.track)], some (env.trackResult.getD 0)) := by
      rw [getCurrentTrackNo_live env sd hfind, hok]
      simp
    exact seekRelTrack_of_cur env d sd _ _ hget hle hlo hhi
  · intro kv hfind hparse
    have hget : getCurrentTrackNo env sd = ([], Option.none) := by
      rw [getCurrentTrackNo_cached env sd kv hfind, hparse]
    simp [seekRelTrack, hget]
  · intro hfind hok
    have hget : getCurrentTrackNo env sd
        = ([(sd.speaker.uuid, RCall.track)], Option.none) := by
      rw [getCurrentTrackNo_live env sd hfind, hok]
      simp
    simp [seekRelTrack, hget]

/-- A speaker record with a parseable cached `CurrentTrack` of 7. -/
def c3SdGood : SpeakerData :=
  { speaker := { uuid := "U3", name := "Den", location := "http://u3" },
    transport_data := [("CurrentTrack", "7")] }

/-- C3 (witness): the amended theorem's cached case at track 7 with delta
−10, seeking to track `max(1, 7 − 10) = 1`. -/
theorem seek_rel_track_target_witness :
    seekRelTrack envAllOk (-10) c3SdGood =
      ([(c3SdGood.speaker.uuid, RCall.seekTrack (max 1 ((7 : Int) + (-10))).toNat)],
        envAllOk.ok (RCall.seekTrack (max 1 ((7 : Int) + (-10))).toNat)) :=
  (seek_rel_track_target envAllOk (-10) c3SdGood).1 ("CurrentTrack", "7") 7
    (by decide) (by decide) (by decide) (by decide) (by decide)

/-! ### C5 -/

/-- C5 (confirmed): whenever the media item resolves to `(uri, metadata)`,
`play_now` performs on the coordinator, in this exact order: clear-queue;
queue-next at position 1 with the PCDATA-escaped metadata; set-transport-uri
to `x-rincon-queue:{coordinator-uuid}#0` with empty metadata; play.  (The
hypotheses say the first three calls succeed; each failing call would stop
the sequence there by `?`.) -/
theorem play_now_call_sequence (env : Env) (esc : String → String)
    (media : MediaSource) (cd : SpeakerData) (tr : List (String × RCall))
    (uri md : String)
    (hres : getUriAndMetadata env cd.speaker media = (tr, some (uri, md)))
    (h1 : env.ok RCall.clearQueue = true)
    (h2 : env.ok (RCall.queueNext uri (esc md) 1) = true)
    (h3 : env.ok
      (RCall.setTransportUri ("x-rincon-queue:" ++ cd.speaker.uuid ++ "#0") "") = true) :
    playNow env esc media cd =
      (tr ++ [(cd.speaker.uuid, RCall.clearQueue),
        (cd.speaker.uuid, RCall.queueNext uri (esc md) 1),
        (cd.speaker.uuid,
          RCall.setTransportUri ("x-rincon-queue:" ++ cd.speaker.uuid ++ "#0") ""),
        (cd.speaker.uuid, RCall.play)],
        env.ok RCall.play) := by
  simp only [playNow, hres]
  simp [h1, h2, h3]

/-- The environment for the C5/C6 witnesses: every call succeeds and the
favorites container holds one item titled `Jazz`. -/
def envFav : Env :=
  { ok := fun _ => true,
    trackResult := some 3,
    browseResult := fun c =>
      if c = "FV:2" then
        [{ title := "Jazz", uri := some "fav-uri", metadata := some "fav-md" }]
      else [] }

/-- The coordinator record for the C5 witness. -/
def c5Cd : SpeakerData :=
  { speaker := { uuid := "U5", name := "Patio", location := "http://u5" },
    transport_data := [] }

/-- C5 (witness): the call-sequence theorem at a concrete favorite that
resolves via browsing `FV:2` (case-insensitive title match). -/
theorem play_now_call_sequence_witness :
    playNow envFav id (MediaSource.sonosFavorite "jazz") c5Cd =
      ([("U5", RCall.browse "FV:2")] ++ [("U5", RCall.clearQueue),
        ("U5", RCall.queueNext "fav-uri" (id "fav-md") 1),
        ("U5", RCall.setTransportUri ("x-rincon-queue:" ++ "U5" ++ "#0") ""),
        ("U5", RCall.play)],
        envFav.ok RCall.play) :=
  play_now_call_sequence envFav id (MediaSource.sonosFavorite "jazz") c5Cd
    [("U5", RCall.browse "FV:2")] "fav-uri" "fav-md"
    (by decide) (by decide) (by decide) (by decide)

/-! ### C6 -/

/-- A coordinator record whose cached `CurrentTrack` is `u32::MAX`
(`parseU32` accepts it), making the `u32` position sum wrap. -/
def c6CdMax : SpeakerData :=
  { speaker := { uuid := "U6", name := "Patio", location := "http://u6" },
    transport_data := [("CurrentTrack", "4294967295")] }

/-- C6 (counterexample): at cached `CurrentTrack = 4294967295` the `u32` sum
`cur_track_no + 1` of `queue_as_next` wraps to 0 (release semantics; a debug
build panics), so the item is enqueued at position 0 — not at
`current + 1 = 4294967296` as the claim's unbounded reading asserts. -/
theorem queue_as_next_overflow_cex :
    queueAsNext envFav id (MediaSource.sonosFavorite "jazz") c6CdMax =
      ([("U6", RCall.browse "FV:2"),
        ("U6", RCall.queueNext "fav-uri" "fav-md" 0)],
        envFav.ok (RCall.queueNext "fav-uri" "fav-md" 0)) ∧
    (0 : Nat) ≠ 4294967295 + 1 := by
  refine ⟨by decide, by decide⟩

/-- C6 (amended): whenever the media item resolves to `(uri, metadata)`,
`queue_as_next` enqueues it on the coordinator at position `current + 1`
computed in `u32` arithmetic — equal to `current + 1` whenever
`current < u32::MAX` (at `current = u32::MAX` the sum instead wraps to 0 in
release builds and panics in debug builds, see the counterexample) — where
`current` is the parsed cached `CurrentTrack` value when one is cached, else
the live-queried track number when the query succeeds (`None` counting as 0),
else 0 when the live query fails. -/
theorem queue_as_next_position (env : Env) (esc : String → String)
    (media : MediaSource) (cd : SpeakerData) (tr2 : List (String × RCall))
    (uri md : String)
    (hres : getUriAndMetadata env cd.speaker media = (tr2, some (uri, md))) :
    (∀ kv cur,
      cd.transport_data.find? (fun kv => eqIgnoreAsciiCase kv.1 "CurrentTrack") = some kv →
      parseU32 kv.2 = some cur → cur < 4294967295 →
      queueAsNext env esc media cd =
        (tr2 ++ [(cd.speaker.uuid, RCall.queueNext uri (esc md) (cur + 1))],
          env.ok (RCall.queueNext uri (esc md) (cur + 1)))) ∧
    (cd.transport_data.find? (fun kv => eqIgnoreAsciiCase kv.1 "CurrentTrack") = Option.none →
      env.ok RCall.track = true → env.trackResult.getD 0 < 4294967295 →
      queueAsNext env esc media cd =
        ([(cd.speaker.uuid, RCall.track)] ++ tr2
          ++ [(cd.speaker.uuid, RCall.queueNext uri (esc md) (env.trackResult.getD 0 + 1))],
          env.ok (RCall.queueNext uri (esc md) (env.trackResult.getD 0 + 1)))) ∧
    (cd.transport_data.find? (fun kv => eqIgnoreAsciiCase kv.1 "CurrentTrack") = Option.none →
      env.ok RCall.track = false →
      queueAsNext env esc media cd =
        ([(cd.speaker.uuid, RCall.track)] ++ tr2
          ++ [(cd.speaker.uuid, RCall.queueNext uri (esc md) 1)],
          env.ok (RCall.queueNext uri (esc md) 1))) := by
  refine ⟨?_, ?_, ?_⟩
  · intro kv cur hfind hparse hlt
    have hget : getCurrentTrackNo env cd = ([], some cur) := by
      rw [getCurrentTrackNo_cached env cd kv hfind, hparse]
    have hmod : (cur + 1) % 4294967296 = cur + 1 := Nat.mod_eq_of_lt (by omega)
    simp [queueAsNext, hget, hres, hmod]
  · intro hfind hok hlt
    have hget : getCurrentTrackNo env cd
        = ([(cd.speaker.uuid, RCall.track)], some (env.trackResult.getD 0)) := by
      rw [getCurrentTrackNo_live env cd hfind, hok]
      simp
    have hmod : (env.trackResult.getD 0 + 1) % 4294967296 = env.trackResult.getD 0 + 1 :=
      Nat.mod_eq_of_lt (by omega)
    simp [queueAsNext, hget, hres, hmod]
  · intro hfind hok
    have hget : getCurrentTrackNo env cd
        = ([(cd.speaker.uuid, RCall.track)], Option.none) := by
      rw [getCurrentTrackNo_live env cd hfind, hok]
      simp
    simp [queueAsNext, hget, hres]

/-- The coordinator record for the C6 witness: cached current track 4. -/
def c6Cd : SpeakerData :=
  { speaker := { uuid := "U6", name := "Patio", location := "http://u6" },
    transport_data := [("CurrentTrack", "4")] }

/-- C6 (witness): the position theorem's cached case at current track 4,
enqueueing the favorite at position 5. -/
theorem queue_as_next_position_witness :
    queueAsNext envFav id (MediaSource.sonosFavorite "jazz") c6Cd =
      ([("U6", RCall.browse "FV:2")]
        ++ [("U6", RCall.queueNext "fav-uri" (id "fav-md") (4 + 1))],
        envFav.ok (RCall.queueNext "fav-uri" (id "fav-md") (4 + 1))) := by
  have h := (queue_as_next_position envFav id (MediaSource.sonosFavorite "jazz") c6Cd
    [("U6", RCall.browse "FV:2")] "fav-uri" "fav-md" (by decide)).1
    ("CurrentTrack", "4") 4 (by decide) (by decide) (by decide)
  simpa using h

/-! ## Commands, events and the recovery branch of `Controller::run`
(`lib.rs` lines 136–143, `types.rs`, `controller.rs` lines 327–387) -/

/-- `lib.rs::Command`.  The oneshot responder handles are opaque channel
endpoints and are modelled payload-free; the room name and zone action of
`DoZoneAction` are kept. -/
inductive Command where
  | DoZoneAction (name : String) (action : ZoneAction)
  | GetStatus
deriving DecidableEq, Repr

/-- Whether a command is a `DoZoneAction`. -/
def Command.isDoZoneAction : Command → Bool
  | Command.DoZoneAction _ _ => true
  | Command.GetStatus => false

/-- `types.rs::Event`. -/
inductive Event where
  | TopoUpdate (uuid : Option String) (topology : Topology)
  | AVTransUpdate (uuid : Option String) (data : List (String × String))
  | SubscribeError (uuid : Option String) (urn : String)
  | NoOp
deriving DecidableEq, Repr

/-- Result of the non-blocking command drain (`'inner` loop): either the
`todo!()` of a `GetStatus` arm panicked the task after handling the commands
before it, or the drain ran dry — with `disconnected = true` when `try_recv`
then reported `Disconnected` (breaking the outer loop) and `false` when it
reported `Empty`. -/
inductive DrainResult where
  | panicked (handled : List (String × ZoneAction))
  | drained (handled : List (String × ZoneAction)) (disconnected : Bool)
deriving DecidableEq, Repr

def DrainResult.isPanicked : DrainResult → Bool
  | DrainResult.panicked _ => true
  | DrainResult.drained _ _ => false

/-- The `'inner` drain loop of the recovery branch: `try_recv` yields the
buffered commands in order (`closed` says whether the sender side is gone, so
that the empty channel reports `Disconnected` instead of `Empty`);
`DoZoneAction` is handled inline, `GetStatus` hits `todo!()`. -/
def drainCommands (closed : Bool) : List Command → DrainResult
  | [] => DrainResult.drained [] closed
  | Command.DoZoneAction n a :: rest =>
    (match drainCommands closed rest with
      | DrainResult.panicked h => DrainResult.panicked ((n, a) :: h)
      | DrainResult.drained h d => DrainResult.drained ((n, a) :: h) d)
  | Command.GetStatus :: _ => DrainResult.panicked []

/-- The `(name, action)` payloads of the `DoZoneAction` commands of a list,
in order. -/
def commandPayloads : List Command → List (String × ZoneAction)
  | [] => []
  | Command.DoZoneAction n a :: rest => (n, a) :: commandPayloads rest
  | Command.GetStatus :: rest => commandPayloads rest

/-- Outcome of one recovery-mode iteration whose `init()` failed. -/
inductive RecoveryOutcome where
  | panicked (handledCommands : List (String × ZoneAction))
  | exitLoop (handledCommands : List (String × ZoneAction))
  | retry (handledCommands : List (String × ZoneAction))
      (handledEvents : List Event) (sleepMs : Nat)
deriving DecidableEq, Repr

/-- The recovery branch of `Controller::run` after `init()` fails: drain and
handle every buffered command without awaiting (a `Disconnected` result
breaks the outer loop; a `GetStatus` panics at `todo!()`); then the
`now_or_never` loop drains and handles every ready event of the stream, in
order; then sleep `1 s − elapsed-since-loop-entry` (saturating, from
`Duration::saturating_sub` on the `Instant` taken at the top of the
iteration) and retry. -/
def recoveryOnFailure (closed : Bool) (pending : List Command)
    (readyEvents : List Event) (elapsedMs : Nat) : RecoveryOutcome :=
  match drainCommands closed pending with
  | DrainResult.panicked h => RecoveryOutcome.panicked h
  | DrainResult.drained h true => RecoveryOutcome.exitLoop h
  | DrainResult.drained h false => RecoveryOutcome.retry h readyEvents (1000 - elapsedMs)

/-- The command arm of the main `select!` of `Controller::run`:
`DoZoneAction` is handled, `GetStatus` hits `todo!()`, a closed channel
(`None`) breaks the loop. -/
inductive CommandStep where
  | handledZone (name : String) (action : ZoneAction)
  | panicked
  | exitLoop
deriving DecidableEq, Repr

def commandStep : Option Command → CommandStep
  | some (Command.DoZoneAction n a) => CommandStep.handledZone n a
  | some Command.GetStatus => CommandStep.panicked
  | Option.none => CommandStep.exitLoop

/-- A drain over `DoZoneAction`-only commands handles all of them, in order,
and ends with what `try_recv` reports on the then-empty channel. -/
theorem drainCommands_all_dozone (closed : Bool) :
    ∀ pending : List Command, (∀ c ∈ pending, c.isDoZoneAction = true) →
      drainCommands closed pending
        = DrainResult.drained (commandPayloads pending) closed := by
  intro pending
  induction pending with
  | nil => intro _; rfl
  | cons c rest ih =>
    intro hall
    cases c with
    | DoZoneAction n a =>
      have hrest : ∀ x ∈ rest, x.isDoZoneAction = true := fun x hx =>
        hall x (List.mem_cons_of_mem _ hx)
      simp [drainCommands, commandPayloads, ih hrest]
    | GetStatus =>
      have := hall Command.GetStatus (List.mem_cons_self _ _)
      simp [Command.isDoZoneAction] at this

/-! ### C7 -/

/-- C7 (confirmed): in every recovery iteration whose rediscovery failed —
with the command channel still open and (per C10's precondition) only
`DoZoneAction` commands pending — the loop first drains and handles all
pending commands without awaiting, then drains and handles all ready events,
then sleeps `1000 − elapsed` ms (saturating), so that attempts are paced at
one per second measured from loop entry whenever the iteration itself took at
most a second. -/
theorem recovery_drains_then_sleeps (pending : List Command)
    (readyEvents : List Event) (elapsedMs : Nat)
    (hall : ∀ c ∈ pending, c.isDoZoneAction = true) :
    recoveryOnFailure false pending readyEvents elapsedMs
      = RecoveryOutcome.retry (commandPayloads pending) readyEvents (1000 - elapsedMs) ∧
    (elapsedMs ≤ 1000 → elapsedMs + (1000 - elapsedMs) = 1000) ∧
    (1000 ≤ elapsedMs → 1000 - elapsedMs = 0) := by
  refine ⟨?_, fun h => by omega, fun h => by omega⟩
  unfold recoveryOnFailure
  rw [drainCommands_all_dozone false pending hall]

/-- C7 (witness): one pending `Play` command and one ready event, 300 ms
already spent in the iteration. -/
theorem recovery_drains_then_sleeps_witness :
    recoveryOnFailure false [Command.DoZoneAction "Kitchen" ZoneAction.Play]
        [Event.NoOp] 300
      = RecoveryOutcome.retry [("Kitchen", ZoneAction.Play)] [Event.NoOp] (1000 - 300) ∧
    ((300 : Nat) ≤ 1000 → (300 : Nat) + (1000 - 300) = 1000) ∧
    ((1000 : Nat) ≤ 300 → (1000 : Nat) - 300 = 0) :=
  recovery_drains_then_sleeps [Command.DoZoneAction "Kitchen" ZoneAction.Play]
    [Event.NoOp] 300 (by decide)

/-! ### C10 -/

/-- C10 (confirmed): a `GetStatus` command panics the run loop through the
`todo!()` arm — in the main `select!` (`commandStep`) and in the recovery
drain (where it panics after the commands buffered before it) — and,
conversely, when every command on the channel is a `DoZoneAction`, neither
path can reach the panicking arm. -/
theorem get_status_panics_dozone_safe :
    (commandStep (some Command.GetStatus) = CommandStep.panicked) ∧
    (∀ (closed : Bool) (l1 l2 : List Command),
      (∀ c ∈ l1, c.isDoZoneAction = true) →
      (drainCommands closed (l1 ++ Command.GetStatus :: l2)).isPanicked = true) ∧
    (∀ (closed : Bool) (pending : List Command),
      (∀ c ∈ pending, c.isDoZoneAction = true) →
      drainCommands closed pending
        = DrainResult.drained (commandPayloads pending) closed) ∧
    (∀ c : Command, c.isDoZoneAction = true →
      commandStep (some c) ≠ CommandStep.panicked) := by
  refine ⟨rfl, ?_, fun closed pending hall => drainCommands_all_dozone closed pending hall, ?_⟩
  · intro closed l1 l2 hall
    induction l1 with
    | nil => rfl
    | cons c rest ih =>
      cases c with
      | DoZoneAction n a =>
        have hrest : ∀ x ∈ rest, x.isDoZoneAction = true := fun x hx =>
          hall x (List.mem_cons_of_mem _ hx)
        have hres := ih hrest
        simp only [List.cons_append, drainCommands]
        cases hd : drainCommands closed (rest ++ Command.GetStatus :: l2) with
        | panicked h => simp [DrainResult.isPanicked]
        | drained h d => rw [hd] at hres; simp [DrainResult.isPanicked] at hres
      | GetStatus =>
        have := hall Command.GetStatus (List.mem_cons_self _ _)
        simp [Command.isDoZoneAction] at this
  · intro c hc
    cases c with
    | DoZoneAction n a => simp [commandStep]
    | GetStatus => simp [Command.isDoZoneAction] at hc

/-- C10 (witness): the theorem's parts at one `DoZoneAction` and one
`GetStatus`. -/
theorem get_status_panics_dozone_safe_witness :
    (commandStep (some Command.GetStatus) = CommandStep.panicked) ∧
    (drainCommands false
        ([Command.DoZoneAction "K" ZoneAction.Play] ++ Command.GetStatus :: [])).isPanicked
      = true ∧
    drainCommands false [Command.DoZoneAction "K" ZoneAction.Play]
      = DrainResult.drained [("K", ZoneAction.Play)] false ∧
    commandStep (some (Command.DoZoneAction "K" ZoneAction.Play))
      ≠ CommandStep.panicked := by
  obtain ⟨h1, h2, h3, h4⟩ := get_status_panics_dozone_safe
  exact ⟨h1, h2 false [Command.DoZoneAction "K" ZoneAction.Play] [] (by decide),
    h3 false [Command.DoZoneAction "K" ZoneAction.Play] (by decide),
    h4 (Command.DoZoneAction "K" ZoneAction.Play) (by decide)⟩

/-! ## `Subscriber::subscribe` (subscriber.rs lines 39–62) -/

/-- `sonor::urns::AV_TRANSPORT`. -/
def AV_TRANSPORT_URN : String := "urn:schemas-upnp-org:service:AVTransport:1"

/-- The fields of `subscriber.rs::Subscriber` that `subscribe` touches.  The
service is represented by its service-type URN (the only part the check
reads); the task handle is represented by whether a task has been spawned
(the network `SUBSCRIBE` happens only inside the spawned task). -/
structure SubscriberState where
  service : Option String
  url : Option String
  uuid : Option String
  taskSpawned : Bool
deriving DecidableEq, Repr

/-- `Subscriber::new` / `Default`. -/
def SubscriberState.new : SubscriberState :=
  { service := Option.none, url := Option.none, uuid := Option.none,
    taskSpawned := false }

/-- `Subscriber::subscribe`: store service, url and uuid; if the service type
is `AV_TRANSPORT` and no UUID was provided, return
`Err(SubscriberError("Need UUID for AV_TRANSPORT Subscriptions!"))` at once —
before the watch channel is created and before `spawn_task` runs; otherwise
create the channel and spawn the listening task, returning the receiver
(`Except.ok`). -/
def subscriberSubscribe (s : SubscriberState) (service url : String)
    (uuid : Option String) : SubscriberState × Except String Unit :=
  let s1 := { s with service := some service, url := some url, uuid := uuid }
  if service = AV_TRANSPORT_URN ∧ uuid = Option.none then
    (s1, Except.error "Need UUID for AV_TRANSPORT Subscriptions!")
  else
    ({ s1 with taskSpawned := true }, Except.ok ())

/-! ### C9 -/

/-- C9 (confirmed): every `subscribe` call for the AV-transport service
without an owning UUID fails immediately with the configuration
`SubscriberError` — no event receiver is produced — and spawns no task (so no
network subscription is performed), whatever the prior subscriber state and
device URL. -/
theorem subscribe_av_transport_requires_uuid (s : SubscriberState) (url : String) :
    (subscriberSubscribe s AV_TRANSPORT_URN url Option.none).2
      = Except.error "Need UUID for AV_TRANSPORT Subscriptions!" ∧
    (subscriberSubscribe s AV_TRANSPORT_URN url Option.none).1.taskSpawned
      = s.taskSpawned := by
  constructor <;> simp [subscriberSubscribe]

end Sonos
